import Mathlib

/-!
# Verification of the phonebook service (`src/index.js`)

Shallow embedding of the Express phonebook backend: an in-memory list of
contact records with a create endpoint (`POST /api/persons`), a lookup
endpoint (`GET /api/persons/:id`), and the port configuration.  Handlers are
modelled as pure functions from the current collection (and the request data)
to an HTTP outcome together with the next collection.
-/

namespace Phonebook

/-- A phonebook record, exactly the three fields the handler stores
(`src/index.js:129-133`): `id`, `name`, `number`. -/
structure Person where
  id : Nat
  name : String
  number : String
deriving Repr, DecidableEq

/-- The JSON request body of `POST /api/persons` as the handler sees it.
The handler only ever reads `body.name` and `body.number`
(`src/index.js:112,120,130,131`); a client-supplied `id` and any other
fields are carried here so we can prove they are ignored.  Fields are
`Option String`: `none` is an absent field, `some s` a string value
(the API contract expects string fields). -/
structure Body where
  name : Option String := none
  number : Option String := none
  id : Option Nat := none
  extra : List (String × String) := []
deriving Repr, DecidableEq

/-- JavaScript truthiness of an optional string field: `undefined` and the
empty string are falsy, every other string is truthy (`!body.name`). -/
def truthy : Option String → Bool
  | none => false
  | some s => s ≠ ""

/-- The body of an HTTP response: a JSON record, a JSON error object
`{error: msg}`, or an empty body (`response.status(404).end()`). -/
inductive RespBody where
  | person (p : Person) : RespBody
  | error (msg : String) : RespBody
  | empty : RespBody
deriving Repr, DecidableEq

/-- The seed collection `persons` (`src/index.js:19-40`). -/
def seedPersons : List Person :=
  [ { id := 1, name := "Arto Hellas", number := "040-123456" },
    { id := 2, name := "Ada Lovelace", number := "39-44-5323523" },
    { id := 3, name := "Dan Abramov", number := "12-43-234345" },
    { id := 4, name := "Mary Poppendieck", number := "39-23-6423122" } ]

/-- `generateId` (`src/index.js:46-51`): `maxId` is `Math.max` over the ids
when the collection is non-empty and `0` otherwise; the new id is
`maxId + 1`.  `Math.max(...xs)` over a non-empty list of naturals is
`foldl max 0`. -/
def generateId (persons : List Person) : Nat :=
  let maxId := if persons.length > 0 then (persons.map (fun n => n.id)).foldl max 0 else 0
  maxId + 1

/-- The `POST /api/persons` handler (`src/index.js:104-146`): returns the
HTTP status, the response body, and the collection after the request.
The three branches mirror the source: missing/falsy field → 400,
duplicate name → 409, otherwise build the record with `generateId` and
replace `persons` by `persons.concat(person)`. -/
def createPerson (persons : List Person) (body : Body) :
    (Nat × RespBody) × List Person :=
  if !(truthy body.name) || !(truthy body.number) then
    ((400, .error "name or number missing"), persons)
  else
    let nameExists := persons.any fun person => some person.name == body.name
    if nameExists then
      ((409, .error "name already exists"), persons)
    else
      let person : Person :=
        { id := generateId persons
          name := body.name.getD ""
          number := body.number.getD "" }
      ((201, .person person), persons ++ [person])

/-!
## `Number()` coercion of the `:id` path segment

`GET /api/persons/:id` runs `const id = Number(request.params.id)`
(`src/index.js:88`) and compares stored ids with `===`.  We model the
ECMAScript `StringToNumber` conversion on string inputs: trim JS whitespace,
empty string is `0`, otherwise a signed decimal literal (with optional
fraction and exponent) or an unsigned hex/octal/binary literal; anything
else is `NaN`.  `NaN` is modelled as `none`; `Infinity`/`-Infinity` are
also modelled as `none` because, like `NaN`, they satisfy `p.id === id` for
no stored (finite, natural) id, which is the only use made of the value. -/

/-- JS whitespace accepted around a numeric string. -/
def isJsWhitespace (c : Char) : Bool :=
  c = ' ' || c = '\t' || c = '\n' || c = '\r' || c = '\x0b' || c = '\x0c' || c = ' '

/-- Value of a list of decimal digit characters. -/
def digitsToNat (cs : List Char) : Nat :=
  cs.foldl (fun a c => 10 * a + (c.toNat - 48)) 0

def isHexDigit (c : Char) : Bool :=
  c.isDigit || ('a' ≤ c && c ≤ 'f') || ('A' ≤ c && c ≤ 'F')

def hexVal (c : Char) : Nat :=
  if c.isDigit then c.toNat - 48
  else if 'a' ≤ c && c ≤ 'f' then c.toNat - 87
  else c.toNat - 55

def hexDigitsToNat (cs : List Char) : Nat :=
  cs.foldl (fun a c => 16 * a + hexVal c) 0

def binDigitsToNat (cs : List Char) : Nat :=
  cs.foldl (fun a c => 2 * a + (c.toNat - 48)) 0

def octDigitsToNat (cs : List Char) : Nat :=
  cs.foldl (fun a c => 8 * a + (c.toNat - 48)) 0

/-- Mantissa of a decimal literal: `Digits`, `Digits . Digits?`, or
`. Digits`.  The value is returned as a pair `(n, k)` standing for
`n / 10 ^ k` (`k` is the number of fraction digits). -/
def parseMantissa (cs : List Char) : Option (Nat × Nat) :=
  let intPart := cs.takeWhile Char.isDigit
  match cs.dropWhile Char.isDigit with
  | [] => if intPart.isEmpty then none else some (digitsToNat intPart, 0)
  | '.' :: frac =>
      if (intPart.isEmpty && frac.isEmpty) || !frac.all Char.isDigit then none
      else some (digitsToNat intPart * 10 ^ frac.length + digitsToNat frac, frac.length)
  | _ => none

/-- Exponent part after `e`/`E`: optionally signed digits. -/
def parseExpPart (cs : List Char) : Option Int :=
  match cs with
  | [] => none
  | '+' :: rest =>
      if rest.isEmpty || !rest.all Char.isDigit then none
      else some ((digitsToNat rest : Nat) : Int)
  | '-' :: rest =>
      if rest.isEmpty || !rest.all Char.isDigit then none
      else some (-((digitsToNat rest : Nat) : Int))
  | _ => if cs.all Char.isDigit then some ((digitsToNat cs : Nat) : Int) else none

/-- The rational `n × 10 ^ e` for a natural `n` and integer exponent `e`. -/
def decValue (n : Nat) : Int → ℚ
  | .ofNat k => mkRat (n * 10 ^ k) 1
  | .negSucc k => mkRat n (10 ^ (k + 1))

/-- An unsigned decimal literal with optional exponent: a mantissa
`n / 10 ^ k` scaled by `10 ^ e` is `n × 10 ^ (e - k)`. -/
def parseDecimal (cs : List Char) : Option ℚ :=
  let mantChars := cs.takeWhile fun c => !(c = 'e' || c = 'E')
  match cs.dropWhile (fun c => !(c = 'e' || c = 'E')) with
  | [] => (parseMantissa mantChars).map fun m => decValue m.1 (-(m.2 : Int))
  | _ :: expChars =>
      match parseMantissa mantChars, parseExpPart expChars with
      | some m, some e => some (decValue m.1 (e - (m.2 : Int)))
      | _, _ => none

/-- `StringToNumber` on a trimmed character list.  A sign is only admitted on
decimal literals (and `Infinity`), never on hex/octal/binary, as in
ECMAScript. -/
def parseNumericLiteral (cs : List Char) : Option ℚ :=
  match cs with
  | [] => some 0
  | '+' :: rest =>
      if rest = "Infinity".data then none else parseDecimal rest
  | '-' :: rest =>
      if rest = "Infinity".data then none
      else (parseDecimal rest).map fun q => -q
  | _ =>
      if cs = "Infinity".data then none
      else
        match cs with
        | '0' :: x :: rest =>
            if x = 'x' || x = 'X' then
              if !rest.isEmpty && rest.all isHexDigit then
                some ((hexDigitsToNat rest : Nat) : ℚ)
              else none
            else if x = 'b' || x = 'B' then
              if !rest.isEmpty && rest.all (fun c => c = '0' || c = '1') then
                some ((binDigitsToNat rest : Nat) : ℚ)
              else none
            else if x = 'o' || x = 'O' then
              if !rest.isEmpty && rest.all (fun c => '0' ≤ c && c ≤ '7') then
                some ((octDigitsToNat rest : Nat) : ℚ)
              else none
            else parseDecimal cs
        | _ => parseDecimal cs

/-- `Number(s)` for a string argument: trim JS whitespace on both ends,
then parse the numeric literal.  `none` stands for `NaN` (or an infinity). -/
def jsNumber (s : String) : Option ℚ :=
  let trimmed := ((s.data.dropWhile isJsWhitespace).reverse.dropWhile isJsWhitespace).reverse
  parseNumericLiteral trimmed

/-- The `GET /api/persons/:id` handler (`src/index.js:87-100`):
`Number(request.params.id)`, then `persons.find(p => p.id === id)`;
the found record as JSON with 200, otherwise `404` with an empty body.
`p.id === id` is false whenever `id` is `NaN` (`none`). -/
def getPersonById (persons : List Person) (idParam : String) :
    Nat × RespBody :=
  let id : Option ℚ := jsNumber idParam
  match persons.find? (fun p => decide ((some ((p.id : Nat) : ℚ) : Option ℚ) = id)) with
  | some person => (200, .person person)
  | none => (404, .empty)

/-- The record the create handler builds on success (`src/index.js:129-133`):
`{name: body.name, number: body.number, id: generateId()}`.  In the success
branch `body.name` and `body.number` are `some _`, so `getD ""` is exactly
their string values. -/
def newPerson (persons : List Person) (body : Body) : Person :=
  { id := generateId persons
    name := body.name.getD ""
    number := body.number.getD "" }

/-- The states the collection can be in: it starts as the seed
(`src/index.js:19-40`) and is only ever reassigned by the create handler
(`src/index.js:136`); no other route writes `persons`. -/
inductive Reachable : List Person → Prop where
  | seed : Reachable seedPersons
  | step (persons : List Person) (body : Body) :
      Reachable persons → Reachable (createPerson persons body).2

/-- A JavaScript value that is either a string (from `process.env`) or a
number, as produced by the expression `process.env.PORT || 3001`. -/
inductive PortValue where
  | str (s : String) : PortValue
  | num (n : Nat) : PortValue
deriving Repr, DecidableEq

/-- `const port = 3001` (`src/index.js:8`). -/
def port : Nat := 3001

/-- `const PORT = process.env.PORT || 3001` (`src/index.js:150`): the
environment string when it is set and truthy (non-empty), otherwise the
number `3001`.  The argument is the value of the `PORT` environment
variable, `none` when unset. -/
def PORT (envPORT : Option String) : PortValue :=
  match envPORT with
  | some s => if s ≠ "" then .str s else .num 3001
  | none => .num 3001

/-- The port the server actually listens on: `app.listen(port, ...)`
(`src/index.js:152`) passes the constant `port`, not `PORT`, so the
environment plays no role. -/
def listeningPort (_envPORT : Option String) : Nat := port

/-!
## Helper lemmas
-/

theorem self_le_foldl_max (l : List Nat) (a : Nat) : a ≤ l.foldl max a := by
  induction l generalizing a with
  | nil => exact Nat.le_refl a
  | cons b t ih => exact Nat.le_trans (Nat.le_max_left a b) (ih (max a b))

theorem le_foldl_max_of_mem (l : List Nat) (a x : Nat) (hx : x ∈ l) :
    x ≤ l.foldl max a := by
  induction l generalizing a with
  | nil => cases hx
  | cons b t ih =>
    rcases List.mem_cons.mp hx with h | h
    · subst h
      exact Nat.le_trans (Nat.le_max_right a x) (self_le_foldl_max t (max a x))
    · exact ih (max a b) h

theorem foldl_max_mem (l : List Nat) (a : Nat) :
    l.foldl max a ∈ l ∨ l.foldl max a = a := by
  induction l generalizing a with
  | nil => exact Or.inr rfl
  | cons b t ih =>
    rw [List.foldl_cons]
    rcases ih (max a b) with h | h
    · exact Or.inl (List.mem_cons_of_mem b h)
    · rcases max_choice a b with hab | hab
      · rw [h, hab]; exact Or.inr rfl
      · rw [h, hab]; exact Or.inl (List.mem_cons_self b t)

/-- The generated id is strictly above every id already in the collection. -/
theorem generateId_gt (persons : List Person) (p : Person) (hp : p ∈ persons) :
    p.id < generateId persons := by
  have hlen : persons.length > 0 :=
    List.length_pos.mpr (List.ne_nil_of_mem hp)
  have hmem : p.id ∈ persons.map fun n => n.id :=
    List.mem_map_of_mem (fun n => n.id) hp
  simp only [generateId, if_pos hlen]
  exact Nat.lt_succ_of_le (le_foldl_max_of_mem _ 0 _ hmem)

/-- Branch lemma: a missing or falsy field takes the 400 branch. -/
theorem createPerson_400 (persons : List Person) (body : Body)
    (h : truthy body.name = false ∨ truthy body.number = false) :
    createPerson persons body = ((400, .error "name or number missing"), persons) := by
  unfold createPerson
  rcases h with h | h <;> simp [h]

/-- Branch lemma: truthy fields plus a clashing name take the 409 branch. -/
theorem createPerson_409 (persons : List Person) (body : Body)
    (hname : truthy body.name = true) (hnum : truthy body.number = true)
    (hdup : (persons.any fun person => some person.name == body.name) = true) :
    createPerson persons body = ((409, .error "name already exists"), persons) := by
  unfold createPerson
  simp [hname, hnum, hdup]

/-- Branch lemma: truthy fields and a fresh name take the 201 branch. -/
theorem createPerson_201 (persons : List Person) (body : Body)
    (hname : truthy body.name = true) (hnum : truthy body.number = true)
    (hfresh : (persons.any fun person => some person.name == body.name) = false) :
    createPerson persons body =
      ((201, .person (newPerson persons body)), persons ++ [newPerson persons body]) := by
  unfold createPerson newPerson
  simp [hname, hnum, hfresh]

/-- A truthy optional string is `some` of its `getD ""` value. -/
theorem truthy_eq_some_getD (o : Option String) (h : truthy o = true) :
    o = some (o.getD "") := by
  cases o with
  | none => simp [truthy] at h
  | some s => rfl

/-- One create request preserves distinctness of ids and of names. -/
theorem inv_createPerson (persons : List Person) (body : Body)
    (h : ((persons.map fun p => p.id).Nodup) ∧ ((persons.map fun p => p.name).Nodup)) :
    (((createPerson persons body).2.map fun p => p.id).Nodup) ∧
    (((createPerson persons body).2.map fun p => p.name).Nodup) := by
  cases h1 : truthy body.name with
  | false => rw [createPerson_400 persons body (Or.inl h1)]; exact h
  | true =>
    cases h2 : truthy body.number with
    | false => rw [createPerson_400 persons body (Or.inr h2)]; exact h
    | true =>
      cases h3 : persons.any fun person => some person.name == body.name with
      | true => rw [createPerson_409 persons body h1 h2 h3]; exact h
      | false =>
        rw [createPerson_201 persons body h1 h2 h3]
        have hfresh : ∀ p ∈ persons, p.name ≠ body.name.getD "" := by
          intro p hp
          have hb := List.any_eq_false.mp h3 p hp
          rw [truthy_eq_some_getD body.name h1] at hb
          simpa using hb
        constructor
        · rw [List.map_append, List.nodup_append]
          refine ⟨h.1, List.nodup_singleton _, ?_⟩
          intro x hx hx'
          rcases List.mem_map.mp hx with ⟨p, hp, hpx⟩
          simp only [List.map_cons, List.map_nil, List.mem_singleton] at hx'
          have hlt := generateId_gt persons p hp
          rw [hpx, hx'] at hlt
          exact Nat.lt_irrefl _ hlt
        · rw [List.map_append, List.nodup_append]
          refine ⟨h.2, List.nodup_singleton _, ?_⟩
          intro x hx hx'
          rcases List.mem_map.mp hx with ⟨p, hp, hpx⟩
          simp only [List.map_cons, List.map_nil, List.mem_singleton] at hx'
          exact hfresh p hp (hpx ▸ hx')

/-- Every reachable collection has pairwise-distinct ids and names. -/
theorem inv_of_reachable (persons : List Person) (h : Reachable persons) :
    ((persons.map fun p => p.id).Nodup) ∧ ((persons.map fun p => p.name).Nodup) := by
  induction h with
  | seed => decide
  | step ps body _ ih => exact inv_createPerson ps body ih

/-!
## Claim theorems
-/

/-- C1: when `name` and `number` are truthy and the name clashes with no
existing record, create returns status 201, appends the new record, and
assigns it the id `1 + max(ids)` (`1` on an empty collection), which is
strictly greater than every pre-existing id. -/
theorem create_assigns_successor_of_max (persons : List Person) (body : Body)
    (hname : truthy body.name = true) (hnum : truthy body.number = true)
    (hfresh : (persons.any fun person => some person.name == body.name) = false) :
    (createPerson persons body).1.1 = 201 ∧
    ∃ person : Person,
      (createPerson persons body).1.2 = RespBody.person person ∧
      (createPerson persons body).2 = persons ++ [person] ∧
      (persons = [] → person.id = 1) ∧
      (persons ≠ [] → ∃ m ∈ persons.map fun p => p.id,
        (∀ x ∈ persons.map fun p => p.id, x ≤ m) ∧ person.id = m + 1) ∧
      (∀ p ∈ persons, p.id < person.id) := by
  rw [createPerson_201 persons body hname hnum hfresh]
  refine ⟨rfl, newPerson persons body, rfl, rfl, ?_, ?_, ?_⟩
  · intro h; subst h; rfl
  · intro hne
    refine ⟨(persons.map fun p => p.id).foldl max 0, ?_, ?_, ?_⟩
    · rcases foldl_max_mem (persons.map fun p => p.id) 0 with hm | hm
      · exact hm
      · rcases List.exists_mem_of_ne_nil persons hne with ⟨q, hq⟩
        have hq' : q.id ∈ persons.map fun p => p.id := List.mem_map_of_mem _ hq
        have hle := le_foldl_max_of_mem (persons.map fun p => p.id) 0 q.id hq'
        rw [hm] at hle ⊢
        have hz : q.id = 0 := Nat.le_zero.mp hle
        exact hz ▸ hq'
    · intro x hx
      exact le_foldl_max_of_mem (persons.map fun p => p.id) 0 x hx
    · show generateId persons = _ + 1
      simp only [generateId, if_pos (List.length_pos.mpr hne)]
  · intro p hp
    exact generateId_gt persons p hp

theorem create_assigns_successor_of_max_witness :
    (createPerson seedPersons { name := some "New Person", number := some "000" }).1.1 = 201 ∧
    ∃ person : Person,
      (createPerson seedPersons { name := some "New Person", number := some "000" }).1.2 =
        RespBody.person person ∧
      (createPerson seedPersons { name := some "New Person", number := some "000" }).2 =
        seedPersons ++ [person] ∧
      (seedPersons = [] → person.id = 1) ∧
      (seedPersons ≠ [] → ∃ m ∈ seedPersons.map fun p => p.id,
        (∀ x ∈ seedPersons.map fun p => p.id, x ≤ m) ∧ person.id = m + 1) ∧
      (∀ p ∈ seedPersons, p.id < person.id) :=
  create_assigns_successor_of_max seedPersons
    { name := some "New Person", number := some "000" } (by decide) (by decide) (by decide)

/-- C2: every reachable collection (seed plus any sequence of creates) has
pairwise-distinct ids and pairwise-distinct names, and one further create
from a reachable state preserves both. -/
theorem reachable_ids_names_nodup (persons : List Person) (h : Reachable persons) :
    (((persons.map fun p => p.id).Nodup) ∧ ((persons.map fun p => p.name).Nodup)) ∧
    ∀ body : Body,
      (((createPerson persons body).2.map fun p => p.id).Nodup) ∧
      (((createPerson persons body).2.map fun p => p.name).Nodup) :=
  ⟨inv_of_reachable persons h,
   fun body => inv_createPerson persons body (inv_of_reachable persons h)⟩

theorem reachable_ids_names_nodup_witness :
    (((seedPersons.map fun p => p.id).Nodup) ∧ ((seedPersons.map fun p => p.name).Nodup)) ∧
    (((createPerson seedPersons { name := some "New Person", number := some "000" }).2.map
        fun p => p.id).Nodup) ∧
    (((createPerson seedPersons { name := some "New Person", number := some "000" }).2.map
        fun p => p.name).Nodup) :=
  ⟨(reachable_ids_names_nodup seedPersons Reachable.seed).1,
   (reachable_ids_names_nodup seedPersons Reachable.seed).2
     { name := some "New Person", number := some "000" }⟩

/-- C3: a create payload whose name or number is missing or falsy fails with
status 400 and body `{error: "name or number missing"}`, and the
collection is unchanged. -/
theorem create_missing_field_400 (persons : List Person) (body : Body)
    (h : truthy body.name = false ∨ truthy body.number = false) :
    (createPerson persons body).1 = (400, RespBody.error "name or number missing") ∧
    (createPerson persons body).2 = persons := by
  rw [createPerson_400 persons body h]
  exact ⟨rfl, rfl⟩

theorem create_missing_field_400_witness :
    (createPerson seedPersons {}).1 = (400, RespBody.error "name or number missing") ∧
    (createPerson seedPersons {}).2 = seedPersons :=
  create_missing_field_400 seedPersons {} (Or.inl rfl)

/-- C4: a create payload with truthy name and number whose name exactly
equals an existing record's name fails with status 409 and body
`{error: "name already exists"}`, and the collection is unchanged. -/
theorem create_duplicate_name_409 (persons : List Person) (body : Body)
    (hname : truthy body.name = true) (hnum : truthy body.number = true)
    (p : Person) (hp : p ∈ persons) (heq : some p.name = body.name) :
    (createPerson persons body).1 = (409, RespBody.error "name already exists") ∧
    (createPerson persons body).2 = persons := by
  have hdup : (persons.any fun person => some person.name == body.name) = true :=
    List.any_eq_true.mpr ⟨p, hp, by rw [← heq]; exact beq_self_eq_true _⟩
  rw [createPerson_409 persons body hname hnum hdup]
  exact ⟨rfl, rfl⟩

theorem create_duplicate_name_409_witness :
    (createPerson seedPersons { name := some "Mary Poppendieck", number := some "1" }).1 =
      (409, RespBody.error "name already exists") ∧
    (createPerson seedPersons { name := some "Mary Poppendieck", number := some "1" }).2 =
      seedPersons :=
  create_duplicate_name_409 seedPersons
    { name := some "Mary Poppendieck", number := some "1" } (by decide) (by decide)
    { id := 4, name := "Mary Poppendieck", number := "39-23-6423122" } (by decide) rfl

/-- C5: the id lookup returns a matching record with status 200 when some
stored record's id equals the numeric parse of the path segment, and
otherwise returns 404 with an empty body; in particular a non-numeric
segment (parse `none`, i.e. `NaN`) yields the 404 empty-body outcome. -/
theorem getPersonById_matches_or_404 (persons : List Person) (s : String) :
    ((∃ p ∈ persons, jsNumber s = some ((p.id : Nat) : ℚ)) →
      ∃ p ∈ persons, jsNumber s = some ((p.id : Nat) : ℚ) ∧
        getPersonById persons s = (200, RespBody.person p)) ∧
    ((∀ p ∈ persons, jsNumber s ≠ some ((p.id : Nat) : ℚ)) →
      getPersonById persons s = (404, RespBody.empty)) ∧
    (jsNumber s = none → getPersonById persons s = (404, RespBody.empty)) := by
  have h404 : (∀ p ∈ persons, jsNumber s ≠ some ((p.id : Nat) : ℚ)) →
      getPersonById persons s = (404, RespBody.empty) := by
    intro hall
    have hnone : persons.find?
        (fun p => decide ((some ((p.id : Nat) : ℚ) : Option ℚ) = jsNumber s)) = none := by
      apply List.find?_eq_none.mpr
      intro p hp
      simp only [decide_eq_true_eq]
      exact fun hc => hall p hp hc.symm
    simp only [getPersonById, hnone]
  refine ⟨?_, h404, ?_⟩
  · rintro ⟨p, hp, hps⟩
    cases hfind : persons.find?
        (fun p => decide ((some ((p.id : Nat) : ℚ) : Option ℚ) = jsNumber s)) with
    | none =>
      have hn := List.find?_eq_none.mp hfind p hp
      simp only [decide_eq_true_eq] at hn
      exact absurd hps.symm hn
    | some q =>
      have hq := List.find?_some hfind
      simp only [decide_eq_true_eq] at hq
      exact ⟨q, List.mem_of_find?_eq_some hfind, hq.symm, by simp only [getPersonById, hfind]⟩
  · intro hn
    refine h404 fun p hp hc => ?_
    rw [hn] at hc
    cases hc

theorem getPersonById_matches_or_404_witness :
    (∃ p ∈ seedPersons, jsNumber "3" = some ((p.id : Nat) : ℚ) ∧
      getPersonById seedPersons "3" = (200, RespBody.person p)) ∧
    getPersonById seedPersons "99" = (404, RespBody.empty) ∧
    getPersonById seedPersons "abc" = (404, RespBody.empty) :=
  ⟨(getPersonById_matches_or_404 seedPersons "3").1 (by decide),
   (getPersonById_matches_or_404 seedPersons "99").2.1 (by decide),
   (getPersonById_matches_or_404 seedPersons "abc").2.2 (by decide)⟩

/-- C6: round-trip — a record returned by a successful create is retrieved
unchanged by the id lookup at its assigned id (any path segment whose
numeric parse equals that id). -/
theorem create_then_get_roundtrip (persons : List Person) (body : Body) (s : String)
    (hname : truthy body.name = true) (hnum : truthy body.number = true)
    (hfresh : (persons.any fun person => some person.name == body.name) = false)
    (hs : jsNumber s = some ((generateId persons : Nat) : ℚ)) :
    ∃ person : Person,
      (createPerson persons body).1 = (201, RespBody.person person) ∧
      getPersonById (createPerson persons body).2 s = (200, RespBody.person person) := by
  rw [createPerson_201 persons body hname hnum hfresh]
  refine ⟨newPerson persons body, rfl, ?_⟩
  have hold : persons.find?
      (fun p => decide ((some ((p.id : Nat) : ℚ) : Option ℚ) = jsNumber s)) = none := by
    apply List.find?_eq_none.mpr
    intro p hp
    simp only [decide_eq_true_eq, hs]
    intro hc
    have hij : p.id = generateId persons := by exact_mod_cast Option.some.inj hc
    have hlt := generateId_gt persons p hp
    rw [hij] at hlt
    exact Nat.lt_irrefl _ hlt
  have hpred : (decide ((some (((newPerson persons body).id : Nat) : ℚ) : Option ℚ)
      = jsNumber s)) = true := by
    rw [hs]
    exact decide_eq_true rfl
  have hsing : List.find?
      (fun p => decide ((some ((p.id : Nat) : ℚ) : Option ℚ) = jsNumber s))
      [newPerson persons body] = some (newPerson persons body) :=
    List.find?_cons_of_pos _ hpred
  simp only [getPersonById, List.find?_append, hold, Option.or, hsing]

theorem create_then_get_roundtrip_witness :
    ∃ person : Person,
      (createPerson seedPersons { name := some "New Person", number := some "000" }).1 =
        (201, RespBody.person person) ∧
      getPersonById
        (createPerson seedPersons { name := some "New Person", number := some "000" }).2 "5" =
        (200, RespBody.person person) :=
  create_then_get_roundtrip seedPersons { name := some "New Person", number := some "000" } "5"
    (by decide) (by decide) (by decide) (by decide)

/-- C7: counter-model for "the listening port is configurable via PORT".
The source computes `PORT = process.env.PORT || 3001` but calls
`app.listen(port)` with the constant `port = 3001`, so with the
environment setting PORT=8080 the server still listens on 3001.  The
listening port equals 3001 for every environment. -/
theorem listeningPort_ignores_environment :
    PORT (some "8080") = PortValue.str "8080" ∧
    listeningPort (some "8080") = 3001 ∧
    listeningPort none = 3001 ∧
    ∀ env : Option String, listeningPort env = 3001 :=
  ⟨rfl, rfl, rfl, fun _ => rfl⟩

/-- C8: on every successful create (status 201) the next collection value is
the old collection with the created record appended at the end; the old
collection value itself is untouched (the handler replaces the binding by
`persons.concat(person)`, which builds a new array). -/
theorem create_appends_immutably (persons : List Person) (body : Body)
    (h : (createPerson persons body).1.1 = 201) :
    ∃ person : Person,
      (createPerson persons body).1.2 = RespBody.person person ∧
      (createPerson persons body).2 = persons ++ [person] := by
  cases h1 : truthy body.name with
  | false => rw [createPerson_400 persons body (Or.inl h1)] at h; simp at h
  | true =>
    cases h2 : truthy body.number with
    | false => rw [createPerson_400 persons body (Or.inr h2)] at h; simp at h
    | true =>
      cases h3 : persons.any fun person => some person.name == body.name with
      | true => rw [createPerson_409 persons body h1 h2 h3] at h; simp at h
      | false =>
        rw [createPerson_201 persons body h1 h2 h3]
        exact ⟨newPerson persons body, rfl, rfl⟩

theorem create_appends_immutably_witness :
    ∃ person : Person,
      (createPerson seedPersons { name := some "New Person", number := some "000" }).1.2 =
        RespBody.person person ∧
      (createPerson seedPersons { name := some "New Person", number := some "000" }).2 =
        seedPersons ++ [person] :=
  create_appends_immutably seedPersons { name := some "New Person", number := some "000" }
    (by decide)

/-- C9: the `:id` segment is coerced with JavaScript `Number` semantics, not
integer parsing: the segments "4.0", " 4" and "4e0" all coerce to 4 and the
lookup answers 200 with the record of id 4 rather than 404. -/
theorem getPersonById_number_coercion :
    getPersonById seedPersons "4.0" =
      (200, RespBody.person { id := 4, name := "Mary Poppendieck", number := "39-23-6423122" }) ∧
    getPersonById seedPersons " 4" =
      (200, RespBody.person { id := 4, name := "Mary Poppendieck", number := "39-23-6423122" }) ∧
    getPersonById seedPersons "4e0" =
      (200, RespBody.person { id := 4, name := "Mary Poppendieck", number := "39-23-6423122" }) := by
  decide

/-- C10: a successful create stores and returns exactly the three fields
`id`, `name`, `number` (the `Person` shape), with `name`/`number` copied
from the payload and `id` generated by the server; the handler never reads
any other payload field, so two payloads agreeing on `name` and `number`
(whatever their client-supplied `id` or extra fields) produce identical
outcomes. -/
theorem create_record_exact_fields (persons : List Person) (body : Body)
    (hname : truthy body.name = true) (hnum : truthy body.number = true)
    (hfresh : (persons.any fun person => some person.name == body.name) = false) :
    ((createPerson persons body).1.2 =
      RespBody.person
        { id := generateId persons
          name := body.name.getD ""
          number := body.number.getD "" }) ∧
    (body.name = some (body.name.getD "") ∧ body.number = some (body.number.getD "")) ∧
    ∀ body2 : Body, body2.name = body.name → body2.number = body.number →
      createPerson persons body2 = createPerson persons body := by
  refine ⟨?_, ⟨truthy_eq_some_getD body.name hname, truthy_eq_some_getD body.number hnum⟩, ?_⟩
  · rw [createPerson_201 persons body hname hnum hfresh]
    rfl
  · intro body2 e1 e2
    simp only [createPerson, e1, e2]

theorem create_record_exact_fields_witness :
    ((createPerson seedPersons
        { name := some "Zoe", number := some "123", id := some 99,
          extra := [("role", "admin")] }).1.2 =
      RespBody.person { id := 5, name := "Zoe", number := "123" }) ∧
    createPerson seedPersons { name := some "Zoe", number := some "123" } =
      createPerson seedPersons
        { name := some "Zoe", number := some "123", id := some 99,
          extra := [("role", "admin")] } :=
  ⟨(create_record_exact_fields seedPersons
      { name := some "Zoe", number := some "123", id := some 99, extra := [("role", "admin")] }
      (by decide) (by decide) (by decide)).1,
   (create_record_exact_fields seedPersons
      { name := some "Zoe", number := some "123", id := some 99, extra := [("role", "admin")] }
      (by decide) (by decide) (by decide)).2.2
     { name := some "Zoe", number := some "123" } rfl rfl⟩

end Phonebook
